import Mathlib

/-!
Shallow embedding of `src/py_machine_config/commands/command.py` (class
`BaseCommand`): the argument tokenizer, the kwargs-driven conditional
enablement resolver in `__init__`, and the file / template helper methods.

Python runtime effects are made explicit:
  * exceptions become `Except PyError` (or a `FileSystem × Option PyError`
    pair when the filesystem may have been mutated before the exception);
  * the filesystem is an explicit association list from path to entry;
  * Python truthiness is an explicit `Bool`-valued function.

The embedding is faithful to the source, including its slips: a reference
to an unbound local name becomes `PyError.nameError`, an access to a
missing attribute becomes `PyError.attributeError`, and the two-value
unpack of a dict iteration (`for key, val in kwargs:`) is modelled exactly
as CPython executes it (iterating the KEYS and unpacking each key string).
-/

/-- Python exception kinds that the embedded code can raise. -/
inductive PyError where
  | nameError (name : String)
  | attributeError (name : String)
  | valueError (msg : String)
  | ioError (msg : String) (path : String)
  | tokenizeError (msg : String)
  deriving DecidableEq, Repr

/-- A Python value, restricted to the shapes the claims exercise. -/
inductive PyVal where
  | bool (b : Bool)
  | str (s : String)
  | int (n : Int)
  | pyNone
  deriving DecidableEq, Repr

/-- Python truthiness (`bool(v)`) on `PyVal`. -/
def pyTruthy : PyVal → Bool
  | PyVal.bool b => b
  | PyVal.str s => !(s == "")
  | PyVal.int n => !(n == 0)
  | PyVal.pyNone => false

/-- A filesystem entry: a regular file with contents, or a directory. -/
inductive FSEntry where
  | file (contents : String)
  | dir
  deriving DecidableEq, Repr

/-- The filesystem snapshot: an association list from path to entry.
A path absent from the list has no filesystem entry. -/
abbrev FileSystem := List (String × FSEntry)

/-- Look a path up in the filesystem snapshot. -/
def fsLookup (fs : FileSystem) (p : String) : Option FSEntry :=
  fs.lookup p

/-- Create or replace the entry at a path (used to model `open(p, "w")`). -/
def fsSet : FileSystem → String → FSEntry → FileSystem
  | [], p, e => [(p, e)]
  | (p0, e0) :: rest, p, e =>
    if p0 == p then (p0, e) :: rest else (p0, e0) :: fsSet rest p e

/-- Insertion-ordered dict update with last-write-wins values, the
semantics of `d[key] = val` on a Python dict. -/
def dictSet : List (String × PyVal) → String → PyVal → List (String × PyVal)
  | [], k, v => [(k, v)]
  | (k0, v0) :: rest, k, v =>
    if k0 == k then (k0, v) :: rest else (k0, v0) :: dictSet rest k v

/- Named characters, used by the tokenizer model. -/

def chSpace : Char := Char.ofNat 32
def chTab : Char := Char.ofNat 9
def chNewline : Char := Char.ofNat 10
def chDot : Char := Char.ofNat 46
def chUnderscore : Char := Char.ofNat 95
def chSquote : Char := Char.ofNat 39
def chDquote : Char := Char.ofNat 34

/-- Token kinds of the CPython `tokenize` module that the source inspects
(`NUMBER`, `STRING`, `NAME`, `OP`) plus the structural kinds the stream
also carries (`ENCODING`, `NEWLINE`, `ENDMARKER`). -/
inductive TokType where
  | ENCODING
  | NUMBER
  | STRING
  | NAME
  | OP
  | NEWLINE
  | ENDMARKER
  deriving DecidableEq, Repr

def isIdentStart (c : Char) : Bool := c.isAlpha || c == chUnderscore

def isIdentChar (c : Char) : Bool := c.isAlphanum || c == chUnderscore

def isNumChar (c : Char) : Bool := c.isDigit || c == chDot

/-- Consume the longest run of characters satisfying `p`. -/
def lexWhile (p : Char → Bool) : List Char → List Char × List Char
  | [] => ([], [])
  | c :: cs =>
    if p c then
      let (t, r) := lexWhile p cs
      (c :: t, r)
    else ([], c :: cs)

/-- Scan the body of a quoted string literal up to and including the
closing quote `q`; `none` when the literal is unterminated. -/
def lexStringBody (q : Char) : List Char → Option (List Char × List Char)
  | [] => none
  | c :: cs =>
    if c == q then some ([q], cs)
    else
      match lexStringBody q cs with
      | some (t, r) => some (c :: t, r)
      | none => none

/-- Fuel-driven lexer loop. Models CPython `tokenize` restricted to the
one-line argument strings the source feeds it: numeric literals, quoted
string literals (returned with their quotes), identifiers, single-character
operator and punctuation tokens, and whitespace between them. -/
def pyLex : Nat → List Char → Except PyError (List (TokType × String))
  | 0, _ => Except.error (PyError.tokenizeError "lexer fuel exhausted")
  | _, [] => Except.ok []
  | fuel + 1, c :: cs =>
    if c == chSpace || c == chTab || c == chNewline then
      pyLex fuel cs
    else if c.isDigit then
      let (t, r) := lexWhile isNumChar (c :: cs)
      match pyLex fuel r with
      | Except.ok rest => Except.ok ((TokType.NUMBER, String.mk t) :: rest)
      | Except.error e => Except.error e
    else if c == chSquote || c == chDquote then
      match lexStringBody c cs with
      | some (t, r) =>
        match pyLex fuel r with
        | Except.ok rest => Except.ok ((TokType.STRING, String.mk (c :: t)) :: rest)
        | Except.error e => Except.error e
      | none => Except.error (PyError.tokenizeError "EOL in single-quoted string")
    else if isIdentStart c then
      let (t, r) := lexWhile isIdentChar (c :: cs)
      match pyLex fuel r with
      | Except.ok rest => Except.ok ((TokType.NAME, String.mk t) :: rest)
      | Except.error e => Except.error e
    else
      match pyLex fuel cs with
      | Except.ok rest => Except.ok ((TokType.OP, String.mk [c]) :: rest)
      | Except.error e => Except.error e

/-- `tokenize(BytesIO(arg_string.encode("utf-8")).readline)` as a list of
(token type, token text) pairs: an `ENCODING` token first, the lexical
tokens of the line, then `NEWLINE` (when the line is non-empty) and
`ENDMARKER`. -/
def pyTokenize (s : String) : Except PyError (List (TokType × String)) :=
  match pyLex (s.length + 1) s.data with
  | Except.error e => Except.error e
  | Except.ok body =>
    Except.ok ((TokType.ENCODING, "utf-8") :: body ++
      (if body.isEmpty then [(TokType.ENDMARKER, "")]
       else [(TokType.NEWLINE, ""), (TokType.ENDMARKER, "")]))

/-- The state of a `BaseCommand` instance. -/
structure BaseCommand where
  command_name : String
  step_name : String
  args : List String
  enabled : Bool
  properties : List (String × PyVal)
  deriving DecidableEq, Repr

/-- The token loop of `BaseCommand.__init__` (source lines 61-70). Each of
the four retained kinds executes `args.append(...)`; `args` is an unbound
local name there (the field is `self.__args`), so the first `NUMBER`,
`STRING`, `NAME` or `OP` token raises `NameError: name args is not
defined`. Structural tokens fall through the `match` untouched. -/
def tokenLoop : List (TokType × String) → Except PyError Unit
  | [] => Except.ok ()
  | (tt, _) :: rest =>
    match tt with
    | TokType.NUMBER => Except.error (PyError.nameError "args")
    | TokType.STRING => Except.error (PyError.nameError "args")
    | TokType.NAME => Except.error (PyError.nameError "args")
    | TokType.OP => Except.error (PyError.nameError "args")
    | _ => tokenLoop rest

/-- The two-value unpack `key, val = k` applied to a string `k`, as in the
header `for key, val in kwargs:` where iterating the dict yields its key
strings. Iterating a string yields its characters, so the unpack succeeds
only when `k` has exactly two characters and otherwise raises
`ValueError`. -/
def unpack2 (k : String) : Except PyError (String × String) :=
  match k.data with
  | [] => Except.error (PyError.valueError "not enough values to unpack (expected 2, got 0)")
  | [_] => Except.error (PyError.valueError "not enough values to unpack (expected 2, got 1)")
  | [a, b] => Except.ok (String.mk [a], String.mk [b])
  | _ => Except.error (PyError.valueError "too many values to unpack (expected 2)")

/-- One iteration of the kwargs `match` in `__init__` (source lines
73-91). The four `if_*` arms first evaluate `self._file_exists(val)` or
`self._directory_exists(val)`; the class defines `file_exists` and
`directory_exists` but no `_file_exists` / `_directory_exists`, so those
arms raise `AttributeError` before touching the filesystem. The
`disabled` / `enabled` arms assign through the `enabled` property setter,
and every other key is stored into the properties dict. -/
def applyKw (fs : FileSystem) (st : BaseCommand) (key : String) (val : PyVal) :
    Except PyError BaseCommand :=
  if key == "if_file_exists" then
    Except.error (PyError.attributeError "_file_exists")
  else if key == "if_directory_exists" then
    Except.error (PyError.attributeError "_directory_exists")
  else if key == "if_not_file_exists" then
    Except.error (PyError.attributeError "_file_exists")
  else if key == "if_not_directory_exists" then
    Except.error (PyError.attributeError "_directory_exists")
  else if key == "disabled" then
    Except.ok { st with enabled := !(pyTruthy val) }
  else if key == "enabled" then
    Except.ok { st with enabled := pyTruthy val }
  else
    Except.ok { st with properties := dictSet st.properties key val }

/-- The kwargs loop of `__init__`: `for key, val in kwargs:` iterates the
KEYS of the kwargs dict, two-value-unpacks each key string, and dispatches
on the unpacked (one-character) key. -/
def kwargsLoop (fs : FileSystem) : BaseCommand → List String → Except PyError BaseCommand
  | st, [] => Except.ok st
  | st, k :: ks =>
    match unpack2 k with
    | Except.error e => Except.error e
    | Except.ok (key, val) =>
      match applyKw fs st key (PyVal.str val) with
      | Except.error e => Except.error e
      | Except.ok st2 => kwargsLoop fs st2 ks

/-- `BaseCommand.__init__(command_name, step_name, arg_string, **kwargs)`
against the filesystem snapshot `fs`. The kwargs dict is insertion
ordered, so it is passed as an ordered list of (keyword, value) pairs. -/
def BaseCommand.init (fs : FileSystem) (command_name step_name arg_string : String)
    (kwargs : List (String × PyVal)) : Except PyError BaseCommand :=
  let st : BaseCommand :=
    { command_name := command_name, step_name := step_name,
      args := [], enabled := true, properties := [] }
  match pyTokenize arg_string with
  | Except.error e => Except.error e
  | Except.ok toks =>
    match tokenLoop toks with
    | Except.error e => Except.error e
    | Except.ok _ => kwargsLoop fs st (kwargs.map Prod.fst)

/-- `BaseCommand.file_exists(file_path)` (source lines 93-94):
`Path(file_path).exists()`. Total and boolean valued. -/
def file_exists (fs : FileSystem) (file_path : String) : Bool :=
  (fsLookup fs file_path).isSome

/-- `BaseCommand.directory_exists(directory_path)` (source lines 96-97):
the body is `Path(file_path).exists() and Path(directory_path).is_dir()`,
and `file_path` is an unbound name in that scope (the parameter is
`directory_path`), so evaluating the first conjunct raises `NameError`
before anything else happens. -/
def directory_exists (fs : FileSystem) (directory_path : String) :
    Except PyError Bool :=
  Except.error (PyError.nameError "file_path")

/-- `readlines()` on the decoded contents of a file: split after every
newline, keeping the newline on each line; a final fragment without a
trailing newline is returned as a last line. -/
def pyReadlinesAux : List Char → List Char → List String
  | [], [] => []
  | [], acc => [String.mk acc.reverse]
  | c :: cs, acc =>
    if c == chNewline then String.mk (acc.reverse ++ [c]) :: pyReadlinesAux cs []
    else pyReadlinesAux cs (c :: acc)

def pyReadlines (s : String) : List String :=
  pyReadlinesAux s.data []

/-- `BaseCommand.read_file(file_path)` (source lines 99-103): raise
`IOError` when no entry exists at the path, otherwise open for reading
(which fails on a directory) and return `readlines()`. -/
def read_file (fs : FileSystem) (file_path : String) :
    Except PyError (List String) :=
  match fsLookup fs file_path with
  | none => Except.error (PyError.ioError "input file not found" file_path)
  | some FSEntry.dir => Except.error (PyError.ioError "Is a directory" file_path)
  | some (FSEntry.file c) => Except.ok (pyReadlines c)

/-- `open(p, "w")`: fails on a directory, otherwise creates the entry or
truncates the existing file to empty contents. -/
def pyOpenWrite (fs : FileSystem) (p : String) : Except PyError FileSystem :=
  match fsLookup fs p with
  | some FSEntry.dir => Except.error (PyError.ioError "Is a directory" p)
  | _ => Except.ok (fsSet fs p (FSEntry.file ""))

/-- `BaseCommand.write_file(file_path, contents, overwrite)` (source lines
105-112). When the target exists and `overwrite` is false it raises
`IOError` before touching the file. Otherwise it opens the file for
writing (creating or truncating it) and runs `f.writeline(line)` for each
line; text file objects have `write` and `writelines` but no `writeline`,
so the first line raises `AttributeError`, leaving the file truncated.
The result pairs the filesystem after the call with the exception raised,
if any. -/
def write_file (fs : FileSystem) (file_path : String) (contents : List String)
    (overwrite : Bool) : FileSystem × Option PyError :=
  if (fsLookup fs file_path).isSome && !overwrite then
    (fs, some (PyError.ioError "file exists and \x27overwrite\x27 was not specified" file_path))
  else
    match pyOpenWrite fs file_path with
    | Except.error e => (fs, some e)
    | Except.ok fs2 =>
      match contents with
      | [] => (fs2, none)
      | _ :: _ => (fs2, some (PyError.attributeError "writeline"))

/-- Python truthiness of an optional string argument defaulting to `None`:
`None` and the empty string are falsy, every other string is truthy. -/
def truthyOptStr : Option String → Bool
  | none => false
  | some s => !(s == "")

/-- `BaseCommand.process_file_template(file_path, template_file_path,
template_contents, context)` (source lines 114-139). The two argument
checks use truthiness (`if not template_file_path and not
template_contents`, then `if template_file_path and template_contents`)
and raise `ValueError`. Past the checks, the file branch first requires
the template file to exist and opens it for reading; every surviving path
then evaluates `env.from_string(template_content)`, and `template_content`
is an unbound name in that scope (the variables are `template` and
`template_contents`), so a `NameError` is raised before the output file is
written. The result pairs the filesystem after the call with the
exception raised, if any. -/
def process_file_template (fs : FileSystem) (file_path : String)
    (template_file_path template_contents : Option String)
    (context : List (String × PyVal)) : FileSystem × Option PyError :=
  if !truthyOptStr template_file_path && !truthyOptStr template_contents then
    (fs, some (PyError.valueError "must specify a template path or template contents"))
  else if truthyOptStr template_file_path && truthyOptStr template_contents then
    (fs, some (PyError.valueError "cannot specify both template path and template contents"))
  else if truthyOptStr template_file_path then
    match template_file_path with
    | some tfp =>
      match fsLookup fs tfp with
      | none => (fs, some (PyError.valueError "template file not found"))
      | some FSEntry.dir => (fs, some (PyError.ioError "Is a directory" tfp))
      | some (FSEntry.file _) => (fs, some (PyError.nameError "template_content"))
    | none => (fs, some (PyError.nameError "template_content"))
  else
    (fs, some (PyError.nameError "template_content"))

/-- The token texts the constructor is documented to capture into `args`:
the `NUMBER`, `STRING`, `NAME` and `OP` tokens of the stream, in order. -/
def keptTokenTexts (toks : List (TokType × String)) : List String :=
  toks.filterMap (fun t =>
    match t.1 with
    | TokType.NUMBER => some t.2
    | TokType.STRING => some t.2
    | TokType.NAME => some t.2
    | TokType.OP => some t.2
    | _ => none)

/-- The argument string of the tokenizer test case: the digit 5, the
single-quoted string literal abc, the identifier foo, the plus operator
and the digit 1, separated by single spaces. -/
def argStringC4 : String := "5 \x27abc\x27 foo + 1"

/-- A filesystem snapshot holding one regular file. -/
def fsOneFile : FileSystem := [("/etc/conf", FSEntry.file "old content")]

/-- Claim C1: the claim says that constructing a step with the directives
`disabled=true` then `enabled=true` evaluates them in order with the last
one winning, yielding `enabled = true`. The code instead raises
`ValueError` while unpacking the first kwargs KEY string `"disabled"` into
the pair `key, val` (the loop header `for key, val in kwargs:` iterates
the dict keys), so no step is constructed at all. -/
theorem c1_disabled_then_enabled_raises :
    BaseCommand.init [] "pkg" "" ""
        [("disabled", PyVal.bool true), ("enabled", PyVal.bool true)]
      = Except.error (PyError.valueError "too many values to unpack (expected 2)") := by
  rfl

/-- Claim C2: the claim says a non-directive keyword is stored verbatim as
`properties[key] = value`. The code instead raises `ValueError` for every
keyword whose name is not exactly two characters (here the keyword color),
and for a two-character keyword such as `ab=7` it stores the mangled entry
mapping the key a to the value b, discarding the caller value entirely. -/
theorem c2_property_key_mangled :
    BaseCommand.init [] "pkg" "" "" [("color", PyVal.str "red")]
        = Except.error (PyError.valueError "too many values to unpack (expected 2)")
    ∧ BaseCommand.init [] "pkg" "" "" [("ab", PyVal.int 7)]
        = Except.ok { command_name := "pkg", step_name := "", args := [],
                      enabled := true, properties := [("a", PyVal.str "b")] } := by
  exact ⟨rfl, rfl⟩

/-- Claim C3: the claim says `if_file_exists=<nonexistent path>` yields
`enabled = false` and `if_not_file_exists=<nonexistent path>` yields
`enabled = true`. The code instead raises `ValueError` while unpacking the
kwargs key string (`"if_file_exists"` has 14 characters, not 2), so
neither construction produces a step; the empty snapshot `[]` makes the
path nonexistent. -/
theorem c3_existence_directives_raise :
    BaseCommand.init [] "pkg" "" "" [("if_file_exists", PyVal.str "/nonexistent")]
        = Except.error (PyError.valueError "too many values to unpack (expected 2)")
    ∧ BaseCommand.init [] "pkg" "" "" [("if_not_file_exists", PyVal.str "/nonexistent")]
        = Except.error (PyError.valueError "too many values to unpack (expected 2)") := by
  exact ⟨rfl, rfl⟩

/-- Claim C4: the claim says constructing with the argument string
`argStringC4` succeeds with `args` equal to the five token texts (the
number 5, the quoted literal abc, the name foo, the plus operator, the
number 1). The token
stream does carry exactly those five retained tokens in that order, but
the constructor appends them to the unbound local name `args` instead of
`self.__args`, so the first token (`NUMBER 5`) raises `NameError` and
construction fails. -/
theorem c4_tokenized_args_raise_name_error :
    (pyTokenize argStringC4).map keptTokenTexts
        = Except.ok ["5", "\x27abc\x27", "foo", "+", "1"]
    ∧ BaseCommand.init [] "pkg" "" argStringC4 []
        = Except.error (PyError.nameError "args") := by
  exact ⟨rfl, rfl⟩

/-- Claim C5: constructing a `BaseCommand` with an empty argument string
and no keywords succeeds, with an empty `args` sequence (the token stream
of the empty string has no `NUMBER` / `STRING` / `NAME` / `OP` token, so
the broken append is never reached), `enabled = true` and empty
properties, for every filesystem snapshot and every pair of names. -/
theorem c5_empty_arg_string_succeeds (fs : FileSystem) (cn sn : String) :
    BaseCommand.init fs cn sn "" []
      = Except.ok { command_name := cn, step_name := sn, args := [],
                    enabled := true, properties := [] } := by
  rfl

/-- Claim C6: the claim says `file_exists` and `directory_exists` both
return a boolean and never raise. `file_exists` does, but
`directory_exists` references the unbound name `file_path` (its parameter
is `directory_path`) and therefore raises `NameError` on every call, for
every filesystem snapshot and every path. -/
theorem c6_directory_exists_always_raises (fs : FileSystem) (p : String) :
    directory_exists fs p = Except.error (PyError.nameError "file_path") := by
  rfl

/-- Claim C7: on an existing path with `overwrite = false`, `write_file`
does fail and leaves the snapshot unchanged, as claimed. But the same call
with `overwrite = true` does not succeed: after opening for writing truncates
the file, `f.writeline(line)` raises `AttributeError` (text file objects
have no `writeline` method), leaving the file empty rather than holding
the given lines. -/
theorem c7_write_file_overwrite_crashes :
    write_file fsOneFile "/etc/conf" ["new line"] false
        = (fsOneFile,
           some (PyError.ioError "file exists and \x27overwrite\x27 was not specified" "/etc/conf"))
    ∧ write_file fsOneFile "/etc/conf" ["new line"] true
        = ([("/etc/conf", FSEntry.file "")],
           some (PyError.attributeError "writeline")) := by
  exact ⟨rfl, rfl⟩

/-- Claim C8: the round-trip `read_file` after a successful
`write_file(path, L, overwrite := true)` cannot be observed for any
non-empty `L`, because `write_file` raises `AttributeError` on the first
`f.writeline(line)` call; the file is left truncated to empty contents,
which `read_file` then reads back as `[]`, not as `L`. -/
theorem c8_roundtrip_broken :
    write_file [] "/out" ["hello\n", "world\n"] true
        = ([("/out", FSEntry.file "")], some (PyError.attributeError "writeline"))
    ∧ read_file [("/out", FSEntry.file "")] "/out" = Except.ok [] := by
  exact ⟨rfl, rfl⟩

/-- Claim C9: `process_file_template` raises `ValueError` when both
template sources are supplied (as truthy, non-empty values) and raises
`ValueError` when neither is supplied, so with truthy arguments exactly
one template source must be given for the call to proceed. -/
theorem c9_exactly_one_template_source (fs : FileSystem) (out : String)
    (ctx : List (String × PyVal)) (tfp tc : Option String)
    (h1 : truthyOptStr tfp = true) (h2 : truthyOptStr tc = true) :
    (process_file_template fs out tfp tc ctx).2
        = some (PyError.valueError "cannot specify both template path and template contents")
    ∧ (process_file_template fs out none none ctx).2
        = some (PyError.valueError "must specify a template path or template contents") := by
  constructor
  · simp [process_file_template, h1, h2]
  · rfl

/-- Claim C9 witness: the theorem applied at a concrete call with both
sources supplied, and at the call with neither supplied. -/
theorem c9_witness :
    (process_file_template [] "/o" (some "/t") (some "x") []).2
        = some (PyError.valueError "cannot specify both template path and template contents")
    ∧ (process_file_template [] "/o" none none []).2
        = some (PyError.valueError "must specify a template path or template contents") :=
  c9_exactly_one_template_source [] "/o" [] (some "/t") (some "x") rfl rfl

/-- Claim C10: supplying the empty string as `template_contents` with no
template file path raises the must-specify-a-template `ValueError`
anyway, because the supplied test is string truthiness and the empty
string is falsy — an empty template is indistinguishable from no template
at this interface. -/
theorem c10_empty_contents_treated_as_missing (fs : FileSystem) (out : String)
    (ctx : List (String × PyVal)) :
    (process_file_template fs out none (some "") ctx).2
      = some (PyError.valueError "must specify a template path or template contents") := by
  rfl
